import Mathlib

/-!
Verification of the MichelangeloCC mesh validation / repair / export core
(`src/michelangelocc/core/{validator,repairer,exporter}.py`) against its
natural-language specification.

The trimesh library is an external dependency: the spec treats the mesh as a
capability interface with derived queries (watertightness, counts, bounds,
volume, area, sorted edge list, per-face areas, winding consistency, connected
components).  We embed a mesh as a record of those query results, and the
library's mutating operations (`merge_vertices`, `remove_degenerate_faces`,
`remove_unreferenced_vertices`, `fix_normals`, `fill_holes`, PyMeshFix) as an
explicit record of state-transition functions (`TrimeshLib`).  Python floats
are modelled as rationals; Python exceptions as `Except` / an explicit
"raised" flag paired with the post-state of the mutated object.
-/

attribute [local semireducible] Rat.sub Rat.add Rat.mul Rat.inv

/-- Severity level of validation issues (`ValidationSeverity` in validator.py). -/
inductive ValidationSeverity where
  | info
  | warning
  | error
deriving DecidableEq, Repr

/-- A value stored in an issue's `details` dict. -/
inductive DetailValue where
  | nat (n : Nat)
  | rat (q : ℚ)
  | str (s : String)
  | bool (b : Bool)
deriving DecidableEq, Repr

/-- A single validation issue (`ValidationIssue` in validator.py). -/
structure ValidationIssue where
  severity : ValidationSeverity
  code : String
  message : String
  details : Option (List (String × DetailValue)) := none
deriving DecidableEq, Repr

/-- A triangle mesh, embedded as the record of derived queries the core reads
from the external trimesh object.  `volume` is the value the library's volume
query would report (the validator only reads it when the mesh is watertight).
`edgesSorted` is the multiset of per-face sorted edges (`mesh.edges_sorted`),
`areaFaces` the per-face areas (`mesh.area_faces`), and `componentCount` the
true number of connected components under shared-edge face adjacency (used to
state spec properties; the validator source never queries it). -/
structure Mesh where
  isWatertight : Bool
  faceCount : Nat
  vertexCount : Nat
  bounds : (ℚ × ℚ × ℚ) × (ℚ × ℚ × ℚ)
  volume : ℚ
  area : ℚ
  edgesSorted : List (Nat × Nat)
  areaFaces : List ℚ
  isWindingConsistent : Bool
  componentCount : Nat
deriving DecidableEq, Repr

/-- Complete validation result for a mesh (`ValidationResult` in validator.py). -/
structure ValidationResult where
  is_valid : Bool
  is_watertight : Bool
  is_printable : Bool
  volume : Option ℚ
  surface_area : Option ℚ
  triangle_count : Nat
  vertex_count : Nat
  bounding_box : (ℚ × ℚ × ℚ) × (ℚ × ℚ × ℚ)
  issues : List ValidationIssue
deriving DecidableEq, Repr

/-- Validator configuration (`MeshValidator.__init__` in validator.py). -/
structure MeshValidator where
  min_wall_thickness : ℚ := 4 / 5
  min_volume : ℚ := 1 / 1000
  max_dimensions : ℚ × ℚ × ℚ := (300, 300, 300)

/-- `MeshValidator()` with its default configuration (as constructed by the
exporter). -/
def defaultMeshValidator : MeshValidator := {}

/-- `MeshValidator._check_watertight`: count edges appearing in exactly one
face (via `np.unique(mesh.edges_sorted, return_counts=True)`; `counts == 1`). -/
def MeshValidator.boundaryEdgeCount (m : Mesh) : Nat :=
  (m.edgesSorted.dedup.filter (fun e => m.edgesSorted.count e = 1)).length

/-- `MeshValidator._check_watertight` (the `hasattr` guards always hold for a
trimesh object, so the body is unconditional). -/
def MeshValidator._check_watertight (m : Mesh) : List ValidationIssue :=
  let boundary_count := MeshValidator.boundaryEdgeCount m
  if boundary_count > 0 then
    [{ severity := .warning
       code := "BOUNDARY_EDGES"
       message := s!"Found {boundary_count} boundary edges (indicates holes)"
       details := some [("boundary_edge_count", .nat boundary_count)] }]
  else []

/-- `MeshValidator._check_degenerate_faces`: faces of area below `1e-10`. -/
def MeshValidator._check_degenerate_faces (m : Mesh) : List ValidationIssue :=
  let degenerate_count := (m.areaFaces.filter (fun a => a < 1 / 10000000000)).length
  if degenerate_count > 0 then
    [{ severity := .warning
       code := "DEGENERATE_FACES"
       message := s!"Found {degenerate_count} degenerate (zero-area) triangles"
       details := some [("degenerate_count", .nat degenerate_count)] }]
  else []

/-- `MeshValidator._check_winding` (the `hasattr` guard always holds). -/
def MeshValidator._check_winding (m : Mesh) : List ValidationIssue :=
  if !m.isWindingConsistent then
    [{ severity := .warning
       code := "INCONSISTENT_WINDING"
       message := "Face winding is not consistent (normals may be inverted)" }]
  else []

/-- One `EXCEEDS_BUILD_VOLUME` check for a single axis of
`MeshValidator._check_printability`. -/
def MeshValidator.axisIssue (axis : String) (dim max_dim : ℚ) : List ValidationIssue :=
  if dim > max_dim then
    [{ severity := .warning
       code := "EXCEEDS_BUILD_VOLUME"
       message := s!"{axis} dimension ({dim}mm) exceeds max build size ({max_dim}mm)"
       details := some [("axis", .str axis), ("size", .rat dim), ("max_size", .rat max_dim)] }]
  else []

/-- `MeshValidator._check_printability`. -/
def MeshValidator._check_printability (self : MeshValidator) (m : Mesh)
    (volume : Option ℚ) : List ValidationIssue :=
  let volumeIssues :=
    match volume with
    | some v =>
      if v < self.min_volume then
        [{ severity := .warning
           code := "SMALL_VOLUME"
           message := s!"Volume ({v} mm^3) is below minimum ({self.min_volume} mm^3)"
           details := some [("volume", .rat v), ("min_volume", .rat self.min_volume)] }]
      else []
    | none => []
  let dims := (m.bounds.2.1 - m.bounds.1.1, m.bounds.2.2.1 - m.bounds.1.2.1,
               m.bounds.2.2.2 - m.bounds.1.2.2)
  let dimIssues :=
    MeshValidator.axisIssue "X" dims.1 self.max_dimensions.1 ++
    MeshValidator.axisIssue "Y" dims.2.1 self.max_dimensions.2.1 ++
    MeshValidator.axisIssue "Z" dims.2.2 self.max_dimensions.2.2
  let thinIssues :=
    match volume with
    | some v =>
      if m.area > 0 then
        let avg_thickness := v / m.area
        if avg_thickness < self.min_wall_thickness / 10 then
          [{ severity := .info
             code := "POSSIBLY_THIN"
             message := s!"Model may have thin walls (avg thickness estimate: {avg_thickness}mm)"
             details := some [("avg_thickness", .rat avg_thickness)] }]
        else []
      else []
    | none => []
  volumeIssues ++ dimIssues ++ thinIssues

/-- `MeshValidator.validate`: full validation of a mesh, assembling the issue
list in source order (NOT_WATERTIGHT during the volume step, then boundary,
degenerate, winding and printability checks). -/
def MeshValidator.validate (self : MeshValidator) (m : Mesh) : ValidationResult :=
  let is_watertight := m.isWatertight
  let volume : Option ℚ := if is_watertight then some m.volume else none
  let wtIssues : List ValidationIssue :=
    if is_watertight then []
    else
      [{ severity := .error
         code := "NOT_WATERTIGHT"
         message := "Mesh is not watertight (has holes or non-manifold edges)"
         details := some [("is_watertight", .bool false)] }]
  let issues :=
    wtIssues ++
    MeshValidator._check_watertight m ++
    MeshValidator._check_degenerate_faces m ++
    MeshValidator._check_winding m ++
    self._check_printability m volume
  let has_errors := issues.any (fun i => i.severity == .error)
  { is_valid := !has_errors
    is_watertight := is_watertight
    is_printable := is_watertight && !has_errors
    volume := volume
    surface_area := some m.area
    triangle_count := m.faceCount
    vertex_count := m.vertexCount
    bounding_box := m.bounds
    issues := issues }

/-- A 10mm cube mesh state: watertight, 12 faces, 8 vertices, 18 distinct
edges each shared by two faces, all face areas 50. -/
def cubeMesh : Mesh where
  isWatertight := true
  faceCount := 12
  vertexCount := 8
  bounds := ((0, 0, 0), (10, 10, 10))
  volume := 1000
  area := 600
  edgesSorted := (List.range 18).flatMap (fun i => [(i, i + 1), (i, i + 1)])
  areaFaces := List.replicate 12 50
  isWindingConsistent := true
  componentCount := 1

/-- Two 10mm cubes, one translated by 50mm, concatenated into one mesh (the
fixture of `tests/unit/test_validator.py::TestCheckConnectedComponents`):
watertight, two connected components, 24 faces, every edge shared by two
faces. -/
def twoCubesMesh : Mesh where
  isWatertight := true
  faceCount := 24
  vertexCount := 16
  bounds := ((0, 0, 0), (60, 10, 10))
  volume := 2000
  area := 1200
  edgesSorted := (List.range 36).flatMap (fun i => [(i, i + 1), (i, i + 1)])
  areaFaces := List.replicate 24 50
  isWindingConsistent := true
  componentCount := 2

/-- A cube with its top face removed: not watertight, open boundary of 4
edges, 10 faces. -/
def openCubeMesh : Mesh where
  isWatertight := false
  faceCount := 10
  vertexCount := 8
  bounds := ((0, 0, 0), (10, 10, 10))
  volume := 1000
  area := 500
  edgesSorted :=
    (List.range 13).flatMap (fun i => [(i, i + 1), (i, i + 1)]) ++
    (List.range 4).map (fun i => (100 + i, 101 + i))
  areaFaces := List.replicate 10 50
  isWindingConsistent := true
  componentCount := 1

/-- C1.  The claim says `validate` emits an ERROR `DISCONNECTED_PARTS` issue
with the true component count, and `is_valid == false`, for every mesh with
more than one connected component.  The validator source has no
connected-component check at all: on the repository's own test fixture (two
disjoint watertight cubes, component count 2) `validate` produces an empty
issue list, no `DISCONNECTED_PARTS` code, and `is_valid = true`.  The
repository's unit tests (`TestCheckConnectedComponents`) assert the claimed
behaviour, so the code contradicts its own tests. -/
theorem validate_no_disconnected_parts_check :
    twoCubesMesh.componentCount = 2 ∧
    (defaultMeshValidator.validate twoCubesMesh).is_valid = true ∧
    (defaultMeshValidator.validate twoCubesMesh).issues.all
      (fun i => i.code ≠ "DISCONNECTED_PARTS") = true := by
  refine ⟨rfl, ?_, ?_⟩ <;> decide

/-- C4.  `is_valid` is true exactly when no issue has severity ERROR, and
`is_printable` equals `is_watertight && is_valid`, for every mesh and every
validator configuration. -/
theorem validate_validity_invariants (self : MeshValidator) (m : Mesh) :
    (self.validate m).is_valid =
      !((self.validate m).issues.any (fun i => i.severity == .error)) ∧
    (self.validate m).is_printable =
      ((self.validate m).is_watertight && (self.validate m).is_valid) := by
  constructor <;> rfl

/-- C6.  The reported `volume` is present exactly when the mesh is
watertight, and every non-watertight mesh gets an ERROR issue with code
`NOT_WATERTIGHT`. -/
theorem validate_volume_iff_watertight (self : MeshValidator) (m : Mesh) :
    ((self.validate m).volume.isSome = m.isWatertight) ∧
    (m.isWatertight = false →
      ((self.validate m).issues.any
        (fun i => i.severity == .error && i.code == "NOT_WATERTIGHT")) = true) := by
  constructor
  · simp only [MeshValidator.validate]
    cases m.isWatertight <;> simp
  · intro h
    simp only [MeshValidator.validate, h]
    simp

/-- Witness for C6 at the open-cube mesh, which is not watertight. -/
theorem validate_volume_iff_watertight_witness :
    openCubeMesh.isWatertight = false ∧
    ((defaultMeshValidator.validate openCubeMesh).issues.any
      (fun i => i.severity == .error && i.code == "NOT_WATERTIGHT")) = true :=
  ⟨rfl, (validate_volume_iff_watertight defaultMeshValidator openCubeMesh).2 rfl⟩

/-- Types of repair actions (`RepairAction` in repairer.py). -/
inductive RepairAction where
  | fill_holes
  | fix_normals
  | remove_duplicates
  | remove_degenerate
  | merge_vertices
  | pymeshfix_repair
deriving DecidableEq, Repr

/-- Log entry for a repair action (`RepairLog` in repairer.py).
`affected_elements` is a Python int, so it is modelled as `Int` (the count
differences the handlers compute can in principle be negative). -/
structure RepairLog where
  action : RepairAction
  description : String
  affected_elements : Int
  success : Bool
deriving DecidableEq, Repr

/-- Result of a mesh repair operation (`RepairResult` in repairer.py). -/
structure RepairResult where
  mesh : Mesh
  was_modified : Bool
  log : List RepairLog
deriving DecidableEq, Repr

/-- The external trimesh / PyMeshFix capabilities the repairer calls into.
The trimesh mutators operate in place on the working mesh object; each is
modelled as a state-transition function returning the post-state.
`fix_normals` and `fill_holes` may raise: they return the post-state of the
(possibly partially mutated) object paired with `true` when an exception was
raised.  `pymeshfix` models `pymeshfix.MeshFix(...)`, `.repair()` and the
reconstruction of a trimesh from its output; `Except.error` is an exception. -/
structure TrimeshLib where
  merge_vertices : Mesh → Mesh
  remove_degenerate_faces : Mesh → Mesh
  remove_unreferenced_vertices : Mesh → Mesh
  fix_normals : Mesh → Mesh × Bool
  fill_holes : Mesh → Mesh × Bool
  pymeshfixAvailable : Bool
  pymeshfix : Mesh → Except String Mesh

/-- `MeshRepairer._merge_vertices` (the repairer's configuration fields
`max_hole_size` / `merge_threshold` are stored by `__init__` but never read
by any repair path, so they are not part of the model). -/
def MeshRepairer._merge_vertices (lib : TrimeshLib) (m : Mesh) : Mesh × RepairLog :=
  let original_count : Int := m.vertexCount
  let m' := lib.merge_vertices m
  let merged : Int := original_count - m'.vertexCount
  (m', { action := .merge_vertices
         description := s!"Merged {merged} duplicate vertices"
         affected_elements := merged
         success := true })

/-- `MeshRepairer._remove_degenerate_faces`. -/
def MeshRepairer._remove_degenerate_faces (lib : TrimeshLib) (m : Mesh) :
    Mesh × RepairLog :=
  let original_count : Int := m.faceCount
  let m' := lib.remove_unreferenced_vertices (lib.remove_degenerate_faces m)
  let removed : Int := original_count - m'.faceCount
  (m', { action := .remove_degenerate
         description := s!"Removed {removed} degenerate faces"
         affected_elements := removed
         success := true })

/-- `MeshRepairer._fix_normals`.  On an exception the source returns the
working object (whatever state the failed `mesh.fix_normals()` call left it
in) with a failure log entry; on success it reports the whole face count as
affected. -/
def MeshRepairer._fix_normals (lib : TrimeshLib) (m : Mesh) : Mesh × RepairLog :=
  let r := lib.fix_normals m
  if r.2 then
    (r.1, { action := .fix_normals
            description := "Failed to fix normals"
            affected_elements := 0
            success := false })
  else
    (r.1, { action := .fix_normals
            description := "Fixed face normal orientation"
            affected_elements := (r.1.faceCount : Int)
            success := true })

/-- `MeshRepairer._fill_holes`.  Already-watertight meshes short-circuit to a
success entry with 0 affected elements; otherwise `mesh.fill_holes()` runs
(mutating the working object) and success is defined as the mesh having
become watertight. -/
def MeshRepairer._fill_holes (lib : TrimeshLib) (m : Mesh) : Mesh × RepairLog :=
  if m.isWatertight then
    (m, { action := .fill_holes
          description := "Mesh already watertight, no holes to fill"
          affected_elements := 0
          success := true })
  else
    let r := lib.fill_holes m
    if r.2 then
      (r.1, { action := .fill_holes
              description := "Failed to fill holes"
              affected_elements := 0
              success := false })
    else
      let is_now_watertight := r.1.isWatertight
      (r.1, { action := .fill_holes
              description := s!"Filled holes (now watertight: {is_now_watertight})"
              affected_elements := if is_now_watertight then 1 else 0
              success := is_now_watertight })

/-- `MeshRepairer.repair_aggressive`.  When PyMeshFix is unavailable or
raises, a single failure entry is returned with `was_modified = false`; on
success `was_modified` is set to `true` unconditionally and the entry reports
`|Δvertices| + |Δfaces|` as affected. -/
def MeshRepairer.repair_aggressive (lib : TrimeshLib) (m : Mesh) : RepairResult :=
  if !lib.pymeshfixAvailable then
    { mesh := m
      was_modified := false
      log := [{ action := .pymeshfix_repair
                description := "PyMeshFix not available (install with pip install pymeshfix)"
                affected_elements := 0
                success := false }] }
  else
    match lib.pymeshfix m with
    | .ok repaired =>
      let vertex_diff := ((repaired.vertexCount : Int) - (m.vertexCount : Int)).natAbs
      let face_diff := ((repaired.faceCount : Int) - (m.faceCount : Int)).natAbs
      { mesh := repaired
        was_modified := true
        log := [{ action := .pymeshfix_repair
                  description := "PyMeshFix comprehensive repair"
                  affected_elements := ((vertex_diff + face_diff : Nat) : Int)
                  success := true }] }
    | .error e =>
      { mesh := m
        was_modified := false
        log := [{ action := .pymeshfix_repair
                  description := s!"PyMeshFix repair failed: {e}"
                  affected_elements := 0
                  success := false }] }

/-- The value `MeshRepairer._perform_action` hands back to the `repair` loop:
the four real handlers (and the unknown-action fallthrough) return a
`(mesh, RepairLog)` pair, but the `PYMESHFIX_REPAIR` dispatch entry calls
`repair_aggressive`, which returns a whole `RepairResult` where the loop
expects a pair. -/
inductive PerformOut where
  | pair (m : Mesh) (entry : RepairLog)
  | aggressiveResult (r : RepairResult)

/-- `MeshRepairer._perform_action`: dispatch over the handler table.
`REMOVE_DUPLICATES` is a member of `RepairAction` but has no entry in the
table, so it falls through to the unknown-action branch. -/
def MeshRepairer._perform_action (lib : TrimeshLib) (m : Mesh) :
    RepairAction → PerformOut
  | .merge_vertices =>
    .pair (MeshRepairer._merge_vertices lib m).1 (MeshRepairer._merge_vertices lib m).2
  | .remove_degenerate =>
    .pair (MeshRepairer._remove_degenerate_faces lib m).1
      (MeshRepairer._remove_degenerate_faces lib m).2
  | .fix_normals =>
    .pair (MeshRepairer._fix_normals lib m).1 (MeshRepairer._fix_normals lib m).2
  | .fill_holes =>
    .pair (MeshRepairer._fill_holes lib m).1 (MeshRepairer._fill_holes lib m).2
  | .pymeshfix_repair => .aggressiveResult (MeshRepairer.repair_aggressive lib m)
  | .remove_duplicates =>
    .pair m { action := .remove_duplicates
              description := "Unknown action: RepairAction.REMOVE_DUPLICATES"
              affected_elements := 0
              success := false }

/-- The fixed ordered default pipeline of `MeshRepairer.repair`. -/
def defaultActions : List RepairAction :=
  [.merge_vertices, .remove_degenerate, .fix_normals, .fill_holes]

/-- The action loop of `MeshRepairer.repair`.  Every handler returns the
working object itself (each `_xxx` method ends in `return mesh`), so the
source's guarded rebinding `mesh = result_mesh` never changes which mesh the
next action sees: the working mesh is always the handler's post-state, and
the `entry.success and entry.affected_elements > 0` test only accumulates
`was_modified`.  A `PYMESHFIX_REPAIR` action makes the loop unpack a
`RepairResult` as a pair, which raises a `TypeError` (`Except.error`). -/
def MeshRepairer.repairLoop (lib : TrimeshLib) :
    Mesh → Bool → List RepairAction → Except String (Mesh × Bool × List RepairLog)
  | m, was_modified, [] => .ok (m, was_modified, [])
  | m, was_modified, action :: rest =>
    match MeshRepairer._perform_action lib m action with
    | .aggressiveResult _ =>
      .error "TypeError: cannot unpack non-iterable RepairResult object"
    | .pair m' entry =>
      (MeshRepairer.repairLoop lib m'
          (was_modified || (entry.success && decide (entry.affected_elements > 0)))
          rest).map
        (fun p => (p.1, p.2.1, entry :: p.2.2))

/-- `MeshRepairer.repair`: works on a copy (value semantics), defaults the
action list to the fixed pipeline, and threads the working mesh through the
loop. -/
def MeshRepairer.repair (lib : TrimeshLib) (m : Mesh)
    (actions : Option (List RepairAction) := none) : Except String RepairResult :=
  let acts := actions.getD defaultActions
  (MeshRepairer.repairLoop lib m false acts).map
    (fun p => { mesh := p.1, was_modified := p.2.1, log := p.2.2 })

/-- A trimesh capability record whose mutators leave the mesh unchanged and
never raise, with PyMeshFix available and returning its input unchanged
(a library run on a mesh that needs no repair). -/
def idLib : TrimeshLib where
  merge_vertices := id
  remove_degenerate_faces := id
  remove_unreferenced_vertices := id
  fix_normals := fun m => (m, false)
  fill_holes := fun m => (m, false)
  pymeshfixAvailable := true
  pymeshfix := fun m => .ok m

/-- A trimesh capability record where `mesh.fix_normals()` raises after
mutating the working object into `cubeMesh` (a watertight state), and the
other mutators are inert. -/
def fixNormalsRaisesLib : TrimeshLib where
  merge_vertices := id
  remove_degenerate_faces := id
  remove_unreferenced_vertices := id
  fix_normals := fun _ => (cubeMesh, true)
  fill_holes := fun m => (m, false)
  pymeshfixAvailable := false
  pymeshfix := fun m => .ok m

/-- A trimesh capability record where `mesh.fill_holes()` succeeds and leaves
the working object in the watertight state `cubeMesh`. -/
def fillWorksLib : TrimeshLib where
  merge_vertices := id
  remove_degenerate_faces := id
  remove_unreferenced_vertices := id
  fix_normals := fun m => (m, false)
  fill_holes := fun _ => (cubeMesh, false)
  pymeshfixAvailable := false
  pymeshfix := fun m => .ok m

/-- The result of `MeshRepairer.repair` with the default pipeline on
`cubeMesh` under `idLib`: nothing changes, yet `FIX_NORMALS` logs the full
face count (12) as affected, so `was_modified` ends up `true`. -/
def cubeRepairResult : RepairResult where
  mesh := cubeMesh
  was_modified := true
  log :=
    [{ action := .merge_vertices, description := "Merged 0 duplicate vertices"
       affected_elements := 0, success := true },
     { action := .remove_degenerate, description := "Removed 0 degenerate faces"
       affected_elements := 0, success := true },
     { action := .fix_normals, description := "Fixed face normal orientation"
       affected_elements := 12, success := true },
     { action := .fill_holes, description := "Mesh already watertight, no holes to fill"
       affected_elements := 0, success := true }]

/-- In the repair loop, `was_modified` accumulates exactly the disjunction of
`success && affected_elements > 0` over the produced log entries. -/
theorem MeshRepairer.repairLoop_was_modified (lib : TrimeshLib)
    (as : List RepairAction) :
    ∀ (m : Mesh) (w : Bool) (p : Mesh × Bool × List RepairLog),
      MeshRepairer.repairLoop lib m w as = .ok p →
      p.2.1 = (w || p.2.2.any (fun e => e.success && decide (e.affected_elements > 0))) := by
  induction as with
  | nil =>
    intro m w p h
    simp only [MeshRepairer.repairLoop] at h
    cases h
    simp
  | cons a rest ih =>
    intro m w p h
    simp only [MeshRepairer.repairLoop] at h
    cases hact : MeshRepairer._perform_action lib m a with
    | aggressiveResult r => rw [hact] at h; cases h
    | pair m' e =>
      rw [hact] at h
      dsimp only at h
      cases hrec : MeshRepairer.repairLoop lib m'
          (w || (e.success && decide (e.affected_elements > 0))) rest with
      | error err => rw [hrec] at h; cases h
      | ok q =>
        rw [hrec] at h
        cases h
        have hq := ih m' (w || (e.success && decide (e.affected_elements > 0))) q hrec
        simp only [List.any_cons, hq, Bool.or_assoc]

/-- Every action other than `PYMESHFIX_REPAIR` produces a `(mesh, log)` pair. -/
theorem MeshRepairer._perform_action_pair (lib : TrimeshLib) (m : Mesh)
    (a : RepairAction) (ha : a ≠ .pymeshfix_repair) :
    ∃ m' e, MeshRepairer._perform_action lib m a = .pair m' e := by
  cases a <;> simp [MeshRepairer._perform_action] at ha ⊢

/-- The repair loop cannot raise when the action list avoids
`PYMESHFIX_REPAIR`. -/
theorem MeshRepairer.repairLoop_isOk (lib : TrimeshLib) (as : List RepairAction)
    (hp : RepairAction.pymeshfix_repair ∉ as) :
    ∀ (m : Mesh) (w : Bool), ∃ p, MeshRepairer.repairLoop lib m w as = .ok p := by
  induction as with
  | nil => intro m w; exact ⟨(m, w, []), rfl⟩
  | cons a rest ih =>
    intro m w
    have ha : a ≠ .pymeshfix_repair := fun h => hp (h ▸ List.mem_cons_self a rest)
    have hrest : RepairAction.pymeshfix_repair ∉ rest := fun h => hp (List.mem_cons_of_mem a h)
    obtain ⟨m', e, hact⟩ := MeshRepairer._perform_action_pair lib m a ha
    obtain ⟨q, hq⟩ := ih hrest m' (w || (e.success && decide (e.affected_elements > 0)))
    exact ⟨(q.1, q.2.1, e :: q.2.2), by
      simp only [MeshRepairer.repairLoop, hact, hq, Except.map]⟩

/-- C2 (amended).  `was_modified == true` iff some log entry reported
`success and affected_elements > 0` holds for every `repair` call; for
`repair_aggressive` the invariant that actually holds is weaker:
`was_modified` is true iff its single log entry reported `success`
(on the success path `was_modified` is set unconditionally, even when
`affected_elements == 0`). -/
theorem repair_was_modified_invariant (lib : TrimeshLib) (m : Mesh)
    (actions : Option (List RepairAction)) (r : RepairResult)
    (h : MeshRepairer.repair lib m actions = .ok r) :
    r.was_modified =
      r.log.any (fun e => e.success && decide (e.affected_elements > 0)) ∧
    (MeshRepairer.repair_aggressive lib m).was_modified =
      (MeshRepairer.repair_aggressive lib m).log.any (fun e => e.success) := by
  constructor
  · simp only [MeshRepairer.repair] at h
    cases hl : MeshRepairer.repairLoop lib m false (actions.getD defaultActions) with
    | error err => rw [hl] at h; cases h
    | ok p =>
      rw [hl] at h
      cases h
      have hacc := MeshRepairer.repairLoop_was_modified lib
        (actions.getD defaultActions) m false p hl
      simpa using hacc
  · unfold MeshRepairer.repair_aggressive
    cases hav : lib.pymeshfixAvailable with
    | false => simp
    | true =>
      cases hpm : lib.pymeshfix m with
      | ok repaired => simp
      | error e => simp

/-- Witness for C2 at `idLib` / `cubeMesh`. -/
theorem repair_was_modified_invariant_witness :
    MeshRepairer.repair idLib cubeMesh none = .ok cubeRepairResult ∧
    (cubeRepairResult.was_modified =
      cubeRepairResult.log.any (fun e => e.success && decide (e.affected_elements > 0)) ∧
     (MeshRepairer.repair_aggressive idLib cubeMesh).was_modified =
      (MeshRepairer.repair_aggressive idLib cubeMesh).log.any (fun e => e.success)) :=
  ⟨rfl, repair_was_modified_invariant idLib cubeMesh none cubeRepairResult rfl⟩

/-- Counterexample for C2 as stated: on `repair_aggressive`'s success path
with a PyMeshFix run that leaves the vertex and face counts unchanged,
`was_modified` is `true` while no log entry has `affected_elements > 0`. -/
theorem repair_aggressive_breaks_invariant :
    (MeshRepairer.repair_aggressive idLib cubeMesh).was_modified = true ∧
    (MeshRepairer.repair_aggressive idLib cubeMesh).log.any
      (fun e => e.success && decide (e.affected_elements > 0)) = false := by
  constructor <;> rfl

/-- C3 (amended).  For a mesh whose first repair reaches a stable fixed
point (the result mesh is watertight, with no removable degenerate faces and
no mergeable duplicate vertices, and `fix_normals` succeeds on it), a second
repair reports `was_modified == (face count > 0)` — not `false`: on any
fixed-point mesh with at least one face the `FIX_NORMALS` entry logs
`success` with the whole face count as `affected_elements`, which sets
`was_modified`. -/
theorem repair_fixed_point_second_pass (lib : TrimeshLib) (m : Mesh)
    (r : RepairResult)
    (h : MeshRepairer.repair lib m none = .ok r)
    (hmv : lib.merge_vertices r.mesh = r.mesh)
    (hrd : lib.remove_degenerate_faces r.mesh = r.mesh)
    (hru : lib.remove_unreferenced_vertices r.mesh = r.mesh)
    (hw : r.mesh.isWatertight = true)
    (hfn : lib.fix_normals r.mesh = (r.mesh, false)) :
    ∃ r2, MeshRepairer.repair lib r.mesh none = .ok r2 ∧
      r2.was_modified = decide ((r.mesh.faceCount : Int) > 0) := by
  exact ⟨_, rfl, by
    simp [MeshRepairer.repair, defaultActions, MeshRepairer.repairLoop,
      MeshRepairer._perform_action, MeshRepairer._merge_vertices,
      MeshRepairer._remove_degenerate_faces, MeshRepairer._fix_normals,
      MeshRepairer._fill_holes, hmv, hrd, hru, hw, hfn, Except.map]⟩

/-- Witness for C3: `cubeMesh` under `idLib` is already a fixed point of the
first repair, and the second pass reports `was_modified = true` since the
cube has 12 faces. -/
theorem repair_fixed_point_second_pass_witness :
    ∃ r2, MeshRepairer.repair idLib cubeRepairResult.mesh none = .ok r2 ∧
      r2.was_modified = decide ((cubeRepairResult.mesh.faceCount : Int) > 0) :=
  repair_fixed_point_second_pass idLib cubeMesh cubeRepairResult rfl rfl rfl rfl rfl rfl

/-- Counterexample for C3 as stated: the first repair of `cubeMesh` under
`idLib` is a stable fixed point (the result mesh is `cubeMesh` itself:
watertight, nothing merged, nothing removed), yet repairing the result again
reports `was_modified = true`, because `FIX_NORMALS` logs `success` with
`affected_elements = 12` (the full face count) on every pass. -/
theorem repair_fixed_point_not_idempotent :
    (MeshRepairer.repair idLib cubeMesh none).map (fun r => r.mesh) = .ok cubeMesh ∧
    cubeMesh.isWatertight = true ∧
    idLib.merge_vertices cubeMesh = cubeMesh ∧
    idLib.remove_degenerate_faces cubeMesh = cubeMesh ∧
    (MeshRepairer.repair idLib cubeMesh none).map (fun r => r.was_modified) =
      .ok true :=
  ⟨rfl, rfl, rfl, rfl, rfl⟩

/-- C5 (amended).  With `actions == None` the attempted actions are exactly
`[MERGE_VERTICES, REMOVE_DEGENERATE, FIX_NORMALS, FILL_HOLES]` in that
order, with one log entry per action in attempt order; the working mesh
passed to action n+1 is always the mesh returned by action n — the handlers
mutate the working copy in place and return it, so this holds even when
action n reported `success == false` — and the
`success and affected_elements > 0` test only determines `was_modified`. -/
theorem repair_default_pipeline_shape (lib : TrimeshLib) (m : Mesh) :
    MeshRepairer.repair lib m none =
      (let s1 := MeshRepairer._merge_vertices lib m
       let s2 := MeshRepairer._remove_degenerate_faces lib s1.1
       let s3 := MeshRepairer._fix_normals lib s2.1
       let s4 := MeshRepairer._fill_holes lib s3.1
       .ok { mesh := s4.1
             was_modified :=
               (((false || (s1.2.success && decide (s1.2.affected_elements > 0))) ||
                 (s2.2.success && decide (s2.2.affected_elements > 0))) ||
                (s3.2.success && decide (s3.2.affected_elements > 0))) ||
               (s4.2.success && decide (s4.2.affected_elements > 0))
             log := [s1.2, s2.2, s3.2, s4.2] }) := rfl

/-- Counterexample for C5's "if and only if action n reported success"
threading clause: under `fixNormalsRaisesLib` on `openCubeMesh`, the
`FIX_NORMALS` call raises after mutating the working mesh into `cubeMesh`
(watertight), so its entry reports `success = false`; yet `FILL_HOLES`
receives that output — it logs the already-watertight no-op entry and the
final mesh is `cubeMesh` — although the mesh that entered `FIX_NORMALS`
(`openCubeMesh`) is not watertight, so under the claim `FILL_HOLES` would
have seen a non-watertight mesh and logged differently. -/
theorem repair_threads_output_of_failed_action :
    openCubeMesh.isWatertight = false ∧
    (MeshRepairer._fix_normals fixNormalsRaisesLib openCubeMesh).2.success = false ∧
    (MeshRepairer._fix_normals fixNormalsRaisesLib openCubeMesh).1 ≠ openCubeMesh ∧
    (MeshRepairer.repair fixNormalsRaisesLib openCubeMesh none).map
      (fun r => r.log.map (fun e => (e.action, e.success, e.description))) =
      .ok [(.merge_vertices, true, "Merged 0 duplicate vertices"),
           (.remove_degenerate, true, "Removed 0 degenerate faces"),
           (.fix_normals, false, "Failed to fix normals"),
           (.fill_holes, true, "Mesh already watertight, no holes to fill")] ∧
    (MeshRepairer.repair fixNormalsRaisesLib openCubeMesh none).map
      (fun r => r.mesh) = .ok cubeMesh :=
  ⟨rfl, rfl, by decide, rfl, rfl⟩

/-- C9 (amended).  An action with no handler entry (REMOVE_DUPLICATES) never
itself raises: it contributes a log entry with `success == false` and
`affected_elements == 0` and leaves the working mesh and `was_modified`
untouched — and `repair` as a whole returns normally provided the actions
list avoids `PYMESHFIX_REPAIR` (whose dispatch entry returns a whole
`RepairResult` where the loop expects a `(mesh, log)` pair, so its presence
makes `repair` raise a `TypeError`). -/
theorem repair_unknown_action_no_handler (lib : TrimeshLib) (m : Mesh)
    (rest : List RepairAction) (hp : RepairAction.pymeshfix_repair ∉ rest) :
    ∃ p : Mesh × Bool × List RepairLog,
      MeshRepairer.repairLoop lib m false rest = .ok p ∧
      MeshRepairer.repair lib m (some (.remove_duplicates :: rest)) =
        .ok { mesh := p.1
              was_modified := p.2.1
              log := { action := .remove_duplicates
                       description := "Unknown action: RepairAction.REMOVE_DUPLICATES"
                       affected_elements := 0
                       success := false } :: p.2.2 } := by
  obtain ⟨p, hloop⟩ := MeshRepairer.repairLoop_isOk lib rest hp m false
  refine ⟨p, hloop, ?_⟩
  simp only [MeshRepairer.repair, Option.getD, MeshRepairer.repairLoop,
    MeshRepairer._perform_action, Bool.false_and, Bool.or_false, hloop, Except.map]

/-- Witness for C9 at `idLib` / `cubeMesh` with the one-action list
`[REMOVE_DUPLICATES]`. -/
theorem repair_unknown_action_no_handler_witness :
    ∃ p : Mesh × Bool × List RepairLog,
      MeshRepairer.repairLoop idLib cubeMesh false [] = .ok p ∧
      MeshRepairer.repair idLib cubeMesh (some [.remove_duplicates]) =
        .ok { mesh := p.1
              was_modified := p.2.1
              log := { action := .remove_duplicates
                       description := "Unknown action: RepairAction.REMOVE_DUPLICATES"
                       affected_elements := 0
                       success := false } :: p.2.2 } :=
  repair_unknown_action_no_handler idLib cubeMesh [] (by simp)

/-- Counterexample for C9 as stated ("does not raise" for every actions list
containing a no-handler action): the list
`[REMOVE_DUPLICATES, PYMESHFIX_REPAIR]` contains the no-handler action, yet
`repair` raises a `TypeError` when the loop unpacks the `RepairResult`
returned by the `PYMESHFIX_REPAIR` dispatch entry. -/
theorem repair_unknown_action_with_pymeshfix_raises :
    MeshRepairer.repair idLib cubeMesh
      (some [.remove_duplicates, .pymeshfix_repair]) =
      .error "TypeError: cannot unpack non-iterable RepairResult object" := rfl

/-- C10.  `_fill_holes` on a non-watertight mesh reports
`affected_elements == 1` whenever it succeeds (success being defined as the
mesh having become watertight), independently of how many holes or elements
the pass changed; on an already-watertight mesh it reports `success == true`
with `affected_elements == 0`. -/
theorem fill_holes_affected_constant (lib : TrimeshLib) (m : Mesh) :
    (m.isWatertight = false →
      (MeshRepairer._fill_holes lib m).2.success = true →
      (MeshRepairer._fill_holes lib m).2.affected_elements = 1) ∧
    (m.isWatertight = true →
      (MeshRepairer._fill_holes lib m).2.success = true ∧
      (MeshRepairer._fill_holes lib m).2.affected_elements = 0) := by
  constructor
  · intro hw hs
    simp only [MeshRepairer._fill_holes, hw, Bool.false_eq_true, if_false] at hs ⊢
    by_cases hr : (lib.fill_holes m).2 = true
    · simp [hr] at hs
    · simp only [Bool.not_eq_true] at hr
      simp only [hr, Bool.false_eq_true, if_false] at hs ⊢
      simp only [hs, if_true]
  · intro hw
    simp [MeshRepairer._fill_holes, hw]

/-- Witness for C10: under `fillWorksLib` the non-watertight `openCubeMesh`
becomes watertight, so the entry reports success with 1 affected element;
under `idLib` the watertight `cubeMesh` short-circuits to success with 0. -/
theorem fill_holes_affected_constant_witness :
    (openCubeMesh.isWatertight = false ∧
     (MeshRepairer._fill_holes fillWorksLib openCubeMesh).2.success = true ∧
     (MeshRepairer._fill_holes fillWorksLib openCubeMesh).2.affected_elements = 1) ∧
    (cubeMesh.isWatertight = true ∧
     (MeshRepairer._fill_holes idLib cubeMesh).2.success = true ∧
     (MeshRepairer._fill_holes idLib cubeMesh).2.affected_elements = 0) :=
  ⟨⟨rfl, rfl, (fill_holes_affected_constant fillWorksLib openCubeMesh).1 rfl rfl⟩,
   ⟨rfl, ((fill_holes_affected_constant idLib cubeMesh).2 rfl).1,
    ((fill_holes_affected_constant idLib cubeMesh).2 rfl).2⟩⟩

/-- STL file format options (`STLFormat` in exporter.py). -/
inductive STLFormat where
  | binary
  | ascii
deriving DecidableEq, Repr

/-- Preset quality levels for STL export (`ExportQuality` in exporter.py). -/
inductive ExportQuality where
  | draft
  | standard
  | high
  | ultra
deriving DecidableEq, Repr

/-- The `QUALITY_TOLERANCES` table of exporter.py (linear tolerances in mm:
DRAFT 0.1, STANDARD 0.01, HIGH 0.001, ULTRA 0.0001). -/
def QUALITY_TOLERANCES : ExportQuality → ℚ
  | .draft => 1 / 10
  | .standard => 1 / 100
  | .high => 1 / 1000
  | .ultra => 1 / 10000

/-- The inline `angular_presets` dict of
`ExportSettings.get_angular_tolerance` (degrees). -/
def angular_presets : ExportQuality → ℚ
  | .draft => 15
  | .standard => 5
  | .high => 1
  | .ultra => 1 / 2

/-- Configuration for STL export (`ExportSettings` in exporter.py). -/
structure ExportSettings where
  format : STLFormat := .binary
  quality : ExportQuality := .standard
  tolerance : Option ℚ := none
  angular_tolerance : Option ℚ := none
  validate_before_export : Bool := true
  repair_if_invalid : Bool := true

/-- `ExportSettings.get_tolerance`: the explicit override wins, otherwise the
quality table value. -/
def ExportSettings.get_tolerance (self : ExportSettings) : ℚ :=
  match self.tolerance with
  | some t => t
  | none => QUALITY_TOLERANCES self.quality

/-- `ExportSettings.get_angular_tolerance`. -/
def ExportSettings.get_angular_tolerance (self : ExportSettings) : ℚ :=
  match self.angular_tolerance with
  | some t => t
  | none => angular_presets self.quality

/-- Result of an export operation (`ExportResult` in exporter.py). -/
structure ExportResult where
  success : Bool
  file_path : Option String
  file_size_bytes : Nat
  triangle_count : Nat
  validation_result : Option ValidationResult
  repair_result : Option RepairResult
  error_message : Option String := none

/-- The model passed to `STLExporter.export`, reduced to the one capability
the exporter uses: `to_mesh(tolerance, angular_tolerance)`, which may raise. -/
structure MichelangeloModel where
  to_mesh : ℚ → ℚ → Except String Mesh

/-- The file-system side of `STLExporter.export`: directory creation,
`mesh.export(path)` and `stat().st_size`, collapsed into one fallible call
returning the written size. -/
structure STLWriter where
  write : Mesh → STLFormat → Except String Nat

/-- The serialization step of `STLExporter.export` (the final `try` block):
on success, an `ExportResult` with the file size and triangle count; on
failure, `success=false` with the error message but with whatever
`validation_result` / `repair_result` were computed still attached. -/
def STLExporter.writeResult (writer : STLWriter) (output_path : String)
    (settings : ExportSettings) (mesh : Mesh) (vr : Option ValidationResult)
    (rr : Option RepairResult) : ExportResult :=
  match writer.write mesh settings.format with
  | .ok size =>
    { success := true
      file_path := some output_path
      file_size_bytes := size
      triangle_count := mesh.faceCount
      validation_result := vr
      repair_result := rr }
  | .error e =>
    { success := false
      file_path := none
      file_size_bytes := 0
      triangle_count := mesh.faceCount
      validation_result := vr
      repair_result := rr
      error_message := some s!"Failed to write STL file: {e}" }

/-- `STLExporter.export`.  A `to_mesh` exception is caught and returned as a
failure result; when validation is enabled and finds the mesh invalid with
repair enabled, the standard repair pipeline runs exactly once, the working
mesh is replaced by the repaired one and validation is re-run on it; then
the (possibly repaired) mesh is serialized regardless of its validity.  An
exception escaping `repairer.repair` is not caught anywhere in `export`, so
it propagates (`Except.error`). -/
def STLExporter.export (model : MichelangeloModel) (lib : TrimeshLib)
    (writer : STLWriter) (output_path : String) (settings : ExportSettings) :
    Except String ExportResult :=
  match model.to_mesh settings.get_tolerance settings.get_angular_tolerance with
  | .error e =>
    .ok { success := false
          file_path := none
          file_size_bytes := 0
          triangle_count := 0
          validation_result := none
          repair_result := none
          error_message := some s!"Failed to convert model to mesh: {e}" }
  | .ok mesh =>
    if settings.validate_before_export then
      let validation_result := defaultMeshValidator.validate mesh
      if !validation_result.is_valid && settings.repair_if_invalid then
        match MeshRepairer.repair lib mesh none with
        | .error e => .error e
        | .ok repair_result =>
          let revalidated := defaultMeshValidator.validate repair_result.mesh
          .ok (STLExporter.writeResult writer output_path settings
            repair_result.mesh (some revalidated) (some repair_result))
      else
        .ok (STLExporter.writeResult writer output_path settings mesh
          (some validation_result) none)
    else
      .ok (STLExporter.writeResult writer output_path settings mesh none none)

/-- `Except.isOk` as a plain Bool (used to state serialization outcomes). -/
def exceptOk : Except String Nat → Bool
  | .ok _ => true
  | .error _ => false

/-- A model whose tessellation always yields the non-watertight
`openCubeMesh`. -/
def openCubeModel : MichelangeloModel where
  to_mesh := fun _ _ => .ok openCubeMesh

/-- A writer that always succeeds, reporting the binary STL size formula
`84 + 50 * triangle_count`. -/
def okWriter : STLWriter where
  write := fun m _ => .ok (84 + 50 * m.faceCount)

/-- The default-pipeline repair of `openCubeMesh` under `idLib`: nothing
merged or removed, `FIX_NORMALS` succeeds (10 faces affected), `FILL_HOLES`
runs but the mesh stays non-watertight, so it logs a failure. -/
def openCubeRepairResult : RepairResult where
  mesh := openCubeMesh
  was_modified := true
  log :=
    [{ action := .merge_vertices, description := "Merged 0 duplicate vertices"
       affected_elements := 0, success := true },
     { action := .remove_degenerate, description := "Removed 0 degenerate faces"
       affected_elements := 0, success := true },
     { action := .fix_normals, description := "Fixed face normal orientation"
       affected_elements := 10, success := true },
     { action := .fill_holes, description := "Filled holes (now watertight: false)"
       affected_elements := 0, success := false }]

/-- C7.  With validation and repair enabled, when tessellation succeeds and
the first validation finds the mesh invalid, `export` runs the standard
repair pipeline exactly once, attaches that single repair result, attaches
the validation of the post-repair mesh (not the pre-repair one), and hands
the repaired mesh to serialization unconditionally — even if it is still
invalid — succeeding exactly when the file write does. -/
theorem export_repairs_at_most_once (model : MichelangeloModel)
    (lib : TrimeshLib) (writer : STLWriter) (path : String)
    (settings : ExportSettings)
    (hv : settings.validate_before_export = true)
    (hri : settings.repair_if_invalid = true)
    (m0 : Mesh)
    (hm : model.to_mesh settings.get_tolerance settings.get_angular_tolerance =
      .ok m0)
    (hinvalid : (defaultMeshValidator.validate m0).is_valid = false)
    (rr : RepairResult)
    (hrep : MeshRepairer.repair lib m0 none = .ok rr) :
    ∃ res : ExportResult,
      STLExporter.export model lib writer path settings = .ok res ∧
      res.repair_result = some rr ∧
      res.validation_result = some (defaultMeshValidator.validate rr.mesh) ∧
      res.triangle_count = rr.mesh.faceCount ∧
      res.success = exceptOk (writer.write rr.mesh settings.format) := by
  refine ⟨STLExporter.writeResult writer path settings rr.mesh
    (some (defaultMeshValidator.validate rr.mesh)) (some rr), ?_, ?_, ?_, ?_, ?_⟩
  · simp only [STLExporter.export, hm, hv, if_true, hinvalid, Bool.not_false,
      Bool.true_and, hri, hrep]
  all_goals
    cases hw : writer.write rr.mesh settings.format <;>
      simp [STLExporter.writeResult, exceptOk, hw]

/-- Witness for C7: `openCubeModel` tessellates to the invalid (non-
watertight) `openCubeMesh`; the single `idLib` repair leaves it invalid, and
export still proceeds to a successful write. -/
theorem export_repairs_at_most_once_witness :
    ∃ res : ExportResult,
      STLExporter.export openCubeModel idLib okWriter "out.stl" {} = .ok res ∧
      res.repair_result = some openCubeRepairResult ∧
      res.validation_result =
        some (defaultMeshValidator.validate openCubeRepairResult.mesh) ∧
      res.triangle_count = openCubeRepairResult.mesh.faceCount ∧
      res.success =
        exceptOk (okWriter.write openCubeRepairResult.mesh
          ({} : ExportSettings).format) :=
  export_repairs_at_most_once openCubeModel idLib okWriter "out.stl" {}
    rfl rfl openCubeMesh rfl (by decide) openCubeRepairResult rfl

/-- C8.  The effective linear tolerance is the explicit override when given
and otherwise the quality-table value (DRAFT 0.1, STANDARD 0.01, HIGH 0.001,
ULTRA 0.0001); likewise the angular tolerance (DRAFT 15.0, STANDARD 5.0,
HIGH 1.0, ULTRA 0.5); and without overrides the linear tolerances are
strictly decreasing from DRAFT to ULTRA. -/
theorem export_settings_tolerance_table (s : ExportSettings) (t a : ℚ) :
    (s.tolerance = some t → s.get_tolerance = t) ∧
    (s.angular_tolerance = some a → s.get_angular_tolerance = a) ∧
    (s.tolerance = none → s.get_tolerance = QUALITY_TOLERANCES s.quality) ∧
    (s.angular_tolerance = none →
      s.get_angular_tolerance = angular_presets s.quality) ∧
    (QUALITY_TOLERANCES .draft = 1 / 10 ∧
     QUALITY_TOLERANCES .standard = 1 / 100 ∧
     QUALITY_TOLERANCES .high = 1 / 1000 ∧
     QUALITY_TOLERANCES .ultra = 1 / 10000) ∧
    (angular_presets .draft = 15 ∧ angular_presets .standard = 5 ∧
     angular_presets .high = 1 ∧ angular_presets .ultra = 1 / 2) ∧
    (({ quality := .draft } : ExportSettings).get_tolerance >
       ({ quality := .standard } : ExportSettings).get_tolerance ∧
     ({ quality := .standard } : ExportSettings).get_tolerance >
       ({ quality := .high } : ExportSettings).get_tolerance ∧
     ({ quality := .high } : ExportSettings).get_tolerance >
       ({ quality := .ultra } : ExportSettings).get_tolerance) := by
  refine ⟨?_, ?_, ?_, ?_, ⟨rfl, rfl, rfl, rfl⟩, ⟨rfl, rfl, rfl, rfl⟩, ?_, ?_, ?_⟩
  · intro h; simp [ExportSettings.get_tolerance, h]
  · intro h; simp [ExportSettings.get_angular_tolerance, h]
  · intro h; simp [ExportSettings.get_tolerance, h]
  · intro h; simp [ExportSettings.get_angular_tolerance, h]
  all_goals decide

/-- Witness for C8: once with explicit overrides (they take precedence) and
once without (the table values apply). -/
theorem export_settings_tolerance_table_witness :
    (({ tolerance := some (1 / 2), angular_tolerance := some 3 } :
        ExportSettings).get_tolerance = 1 / 2 ∧
     ({ tolerance := some (1 / 2), angular_tolerance := some 3 } :
        ExportSettings).get_angular_tolerance = 3) ∧
    (({ quality := .draft } : ExportSettings).get_tolerance =
       QUALITY_TOLERANCES .draft ∧
     ({ quality := .draft } : ExportSettings).get_angular_tolerance =
       angular_presets .draft) :=
  ⟨⟨(export_settings_tolerance_table
       { tolerance := some (1 / 2), angular_tolerance := some 3 } (1 / 2) 3).1 rfl,
    (export_settings_tolerance_table
       { tolerance := some (1 / 2), angular_tolerance := some 3 } (1 / 2) 3).2.1 rfl⟩,
   ⟨(export_settings_tolerance_table { quality := .draft } 0 0).2.2.1 rfl,
    (export_settings_tolerance_table { quality := .draft } 0 0).2.2.2.1 rfl⟩⟩
